import Mathlib

/-!
Shallow embedding of the `ai_risk_gatekeeper` risk pipeline.

Python floats are modelled as exact rationals (`ℚ`), Python ints as `ℤ`
(counts as `ℕ` where the source can only produce non-negative values),
strings as `String`, dicts/OrderedDicts as association lists.  Wall-clock
timestamps are explicit `ℚ` parameters.  Each definition is translated
from the corresponding function in `src/ai_risk_gatekeeper/`.
-/

set_option maxHeartbeats 1600000

namespace RiskGatekeeper

/-- `models/events.py` — `EnterpriseActionEvent` (the raw input event). -/
structure EnterpriseActionEvent where
  actor_id : String
  action : String
  role : String
  frequency_last_60s : ℤ
  geo_change : Bool
  timestamp : ℤ
  session_id : String
  resource_sensitivity : String
deriving DecidableEq

/-- `models/events.py` — `RiskSignal` (output of the signal processor). -/
structure RiskSignal where
  actor_id : String
  risk_score : ℚ
  risk_factors : List String
  original_event : EnterpriseActionEvent
  processing_timestamp : ℤ
  correlation_id : String
deriving DecidableEq

/-- `models/events.py` — `DecisionResult` (internal engine result). -/
structure DecisionResult where
  decision : String
  confidence : ℚ
  reason : String
  source : String
  latency_ms : ℚ
  provisional : Bool := false
  correlation_id : String := ""
  actor_id : String := ""
deriving DecidableEq

/-- `models/events.py` — `RiskDecision` (emitted decision record). -/
structure RiskDecision where
  actor_id : String
  decision : String
  confidence : ℚ
  reason : String
  correlation_id : String
  decision_timestamp : ℤ
deriving DecidableEq

/-- `models/events.py` — `DecisionMode` enum. -/
inductive DecisionMode where
  | FAST
  | HYBRID
  | FULL_AI
deriving DecidableEq

/-- First-match association-list lookup; models a Python dict lookup
(keys are unique in every dict we model). -/
def alookup {α β : Type} [DecidableEq α] : List (α × β) → α → Option β
  | [], _ => none
  | (k, v) :: rest, key => if key = k then some v else alookup rest key

/-- `agents/signal_processor.py` — `RiskScoringConfig` dataclass.
`sensitivity_scores` and `suspicious_combinations` are the dict and list
built in `__post_init__`. -/
structure RiskScoringConfig where
  normal_frequency_max : ℤ := 5
  elevated_frequency_threshold : ℤ := 10
  high_frequency_threshold : ℤ := 20
  frequency_weight : ℚ := 3/10
  geo_change_weight : ℚ := 1/4
  sensitivity_weight : ℚ := 1/4
  role_action_weight : ℚ := 1/5
  sensitivity_scores : List (String × ℚ) :=
    [("low", 1/10), ("medium", 3/10), ("high", 3/5), ("critical", 1)]
  suspicious_combinations : List (String × String) :=
    [("developer", "admin_access"), ("analyst", "config_change"),
     ("support", "data_delete"), ("developer", "bulk_export")]

/-- The default `RiskScoringConfig()` used by `SignalProcessor.__init__`. -/
def defaultRiskScoringConfig : RiskScoringConfig := {}

/-- The frequency subscore computed inline in
`SignalProcessor.calculate_risk_score` (the `freq_score` local). -/
def freq_score_of (cfg : RiskScoringConfig) (frequency : ℤ) : ℚ :=
  if frequency > cfg.high_frequency_threshold then 1
  else if frequency > cfg.elevated_frequency_threshold then 3/5
  else if frequency > cfg.normal_frequency_max then 3/10
  else 0

/-- `SignalProcessor.calculate_risk_score`.  `real_frequency` is the
optional tracker reading; when absent the event field is used.  The
final `min(score, 1.0)` is the upper clamp from the source. -/
def calculate_risk_score (cfg : RiskScoringConfig) (event : EnterpriseActionEvent)
    (real_frequency : Option ℤ) : ℚ :=
  let frequency := real_frequency.getD event.frequency_last_60s
  let freq_score := freq_score_of cfg frequency
  let score := freq_score * cfg.frequency_weight
  let score := if event.geo_change then score + 1 * cfg.geo_change_weight else score
  let sensitivity_score := (alookup cfg.sensitivity_scores event.resource_sensitivity).getD (3/10)
  let score := score + sensitivity_score * cfg.sensitivity_weight
  let score :=
    if (event.role, event.action) ∈ cfg.suspicious_combinations then
      score + 1 * cfg.role_action_weight
    else if event.role = "admin" ∨ event.role = "superuser" ∨ event.role = "root" then
      score + 3/10 * cfg.role_action_weight
    else score
  min score 1

/-- `SignalProcessor.identify_risk_factors`. -/
def identify_risk_factors (cfg : RiskScoringConfig) (event : EnterpriseActionEvent)
    (real_frequency : Option ℤ) : List String :=
  let frequency := real_frequency.getD event.frequency_last_60s
  let l1 : List String :=
    if frequency > cfg.high_frequency_threshold then
      ["high_frequency_activity (" ++ toString frequency ++ "/min)"]
    else if frequency > cfg.elevated_frequency_threshold then
      ["elevated_frequency (" ++ toString frequency ++ "/min)"]
    else []
  let l2 : List String := if event.geo_change then ["geographic_anomaly"] else []
  let l3 : List String :=
    if event.resource_sensitivity = "high" ∨ event.resource_sensitivity = "critical" then
      ["sensitive_resource_" ++ event.resource_sensitivity]
    else []
  let l4 : List String :=
    if (event.role, event.action) ∈ cfg.suspicious_combinations then
      ["suspicious_role_action_combination"]
    else []
  let l5 : List String :=
    if event.role = "admin" ∨ event.role = "superuser" ∨ event.role = "root" then
      ["elevated_privileges"]
    else []
  let l6 : List String :=
    if event.action = "bulk_export" ∨ event.action = "data_delete" ∨ event.action = "config_change" then
      ["sensitive_action_" ++ event.action]
    else []
  l1 ++ l2 ++ l3 ++ l4 ++ l5 ++ l6

/-- Spec-side frequency subscore, from the spec's scoring table
(`>20 → 1.0; >10 → 0.6; >5 → 0.3; else 0.0`); for comparison with
the source-derived `calculate_risk_score`. -/
def spec_freq_sub (f : ℤ) : ℚ :=
  if f > 20 then 1 else if f > 10 then 3/5 else if f > 5 then 3/10 else 0

/-- Spec-side geo subscore (`geo_change → 1.0 else 0.0`). -/
def spec_geo_sub (e : EnterpriseActionEvent) : ℚ :=
  if e.geo_change then 1 else 0

/-- Spec-side sensitivity subscore
(`low→0.1, medium→0.3, high→0.6, critical→1.0, unknown→0.3`). -/
def spec_sens_sub (s : String) : ℚ :=
  if s = "low" then 1/10
  else if s = "medium" then 3/10
  else if s = "high" then 3/5
  else if s = "critical" then 1
  else 3/10

/-- Spec-side role/action subscore (curated table → 1.0; elevated role
→ 0.3; else 0.0). -/
def spec_role_action_sub (role action : String) : ℚ :=
  if (role, action) ∈ defaultRiskScoringConfig.suspicious_combinations then 1
  else if role = "admin" ∨ role = "superuser" ∨ role = "root" then 3/10
  else 0

/-- Spec-side score: the weighted sum of the four subscores clamped to
`[0,1]`, exactly as the scoring contract states it. -/
def spec_score (e : EnterpriseActionEvent) (real_frequency : Option ℤ) : ℚ :=
  max 0 (min 1
    (3/10 * spec_freq_sub (real_frequency.getD e.frequency_last_60s)
      + 1/4 * spec_geo_sub e
      + 1/4 * spec_sens_sub e.resource_sensitivity
      + 1/5 * spec_role_action_sub e.role e.action))

/-- Python's `round` (banker's rounding) modelled by Mathlib's `round`
(they differ only on exact ties, which no claim exercises). -/
def roundTo1 (q : ℚ) : ℚ := (round (q * 10) : ℤ) / 10

/-- Insertion step of a stable ascending sort (models Python `sorted`). -/
def insertSorted (s : String) : List String → List String
  | [] => [s]
  | t :: rest => if t < s then t :: insertSorted s rest else s :: t :: rest

/-- `sorted` on a list of strings. -/
def sortStrings (l : List String) : List String := l.foldr insertSorted []

/-- The pattern tuple that `DecisionCache.compute_pattern_hash` hashes.
The MD5 digest is modelled as the (injective) pattern itself: the claims
never depend on hash collisions, and the source treats the digest as an
opaque key. -/
structure Pattern where
  action : String
  role : String
  risk_bucket : ℚ
  factors : List String
  geo_change : Bool
  sensitivity : String
deriving DecidableEq

/-- `agents/decision_cache.py` — `CacheEntry`. -/
structure CacheEntry where
  result : DecisionResult
  timestamp : ℚ
deriving DecidableEq

/-- `agents/decision_cache.py` — `DecisionCache`.  The `OrderedDict` is an
association list whose head is the least-recently-used entry and whose
last element is the most-recently-used one. -/
structure DecisionCache where
  max_size : ℕ := 1000
  ttl_seconds : ℚ := 300
  cache : List (Pattern × CacheEntry) := []

/-- `DecisionCache.compute_pattern_hash`. -/
def compute_pattern_hash (signal : RiskSignal) : Pattern :=
  { action := signal.original_event.action
    role := signal.original_event.role
    risk_bucket := roundTo1 signal.risk_score
    factors := sortStrings signal.risk_factors
    geo_change := signal.original_event.geo_change
    sensitivity := signal.original_event.resource_sensitivity }

/-- Deletion of a key from the ordered mapping (`del self._cache[key]`;
keys are unique, so the filter removes exactly the one entry). -/
def removeKey (l : List (Pattern × CacheEntry)) (key : Pattern) : List (Pattern × CacheEntry) :=
  l.filter (fun p => p.1 ≠ key)

/-- `DecisionCache.get` at wall-clock time `now`: miss on absence, lazy
deletion of a TTL-expired entry, and on a hit `move_to_end` plus a copy
of the stored result re-tagged `source="cache"` with `latency_ms=0.1`. -/
def cacheGet (c : DecisionCache) (now : ℚ) (key : Pattern) :
    Option DecisionResult × DecisionCache :=
  match alookup c.cache key with
  | none => (none, c)
  | some entry =>
    if now - entry.timestamp > c.ttl_seconds then
      (none, { c with cache := removeKey c.cache key })
    else
      ( some { decision := entry.result.decision
               confidence := entry.result.confidence
               reason := entry.result.reason
               source := "cache"
               latency_ms := 1/10
               provisional := false
               correlation_id := entry.result.correlation_id
               actor_id := entry.result.actor_id }
      , { c with cache := removeKey c.cache key ++ [(key, entry)] } )

/-- `DecisionCache.put` at wall-clock time `now`: delete an existing
entry for the key, pop LRU entries (the front) while the length is at
least `max_size`, then append the new entry at the MRU end.  The while
loop is `List.drop (length + 1 - max_size)`. -/
def cachePut (c : DecisionCache) (now : ℚ) (key : Pattern) (result : DecisionResult) :
    DecisionCache :=
  let l := removeKey c.cache key
  let l := l.drop (l.length + 1 - c.max_size)
  { c with cache := l ++ [(key, ⟨result, now⟩)] }

/-- Outcome of one attempted backend call in
`HybridDecisionEngine._query_ai`: no client configured, the
`generate_content` call raising, or a textual response whose JSON layer
is modelled by `AIResponse`. -/
inductive AIResponse where
  | parsed (decision : String) (confidence : ℚ) (reason : String)
  | parseFailure
deriving DecidableEq

/-- See `AIResponse`. -/
inductive AIOutcome where
  | unavailable
  | backendError
  | response (r : AIResponse)
deriving DecidableEq

/-- Engine state: mode, thresholds, AI queue counters and the cache
(`HybridDecisionEngine.__init__` defaults). -/
structure EngineState where
  mode : DecisionMode := DecisionMode.HYBRID
  low_threshold : ℚ := 3/10
  high_threshold : ℚ := 4/5
  max_queue_size : ℕ := 100
  ai_queue_size : ℕ := 0
  cache : DecisionCache := {}

/-- Percent formatting `f"{q:.0%}"` (rounding modelled by `round`). -/
def pctFormat (q : ℚ) : String := toString (round (q * 100) : ℤ) ++ "%"

/-- `HybridDecisionEngine._rule_decision`.  Latency measurement is not
modelled (`latency_ms = 0`). -/
def rule_decision (low high : ℚ) (signal : RiskSignal) (decisionArg : Option String) :
    DecisionResult :=
  let dc : String × ℚ :=
    match decisionArg with
    | none =>
      if signal.risk_score < low then ("allow", 9/10)
      else if signal.risk_score > high then ("block", 9/10)
      else if signal.risk_score ≥ 1/2 then ("throttle", 7/10)
      else ("allow", 7/10)
    | some d => (d, if d = "allow" ∨ d = "block" then 9/10 else 7/10)
  let reason :=
    if dc.1 = "allow" then "Low risk (" ++ pctFormat signal.risk_score ++ ") - auto-approved by rules"
    else if dc.1 = "block" then "High risk (" ++ pctFormat signal.risk_score ++ ") - auto-blocked by rules"
    else if dc.1 = "throttle" then "Medium risk (" ++ pctFormat signal.risk_score ++ ") - rate limited by rules"
    else "Risk score " ++ pctFormat signal.risk_score ++ " - rule-based decision"
  { decision := dc.1
    confidence := dc.2
    reason := reason
    source := "rule"
    latency_ms := 0
    provisional := false
    correlation_id := signal.correlation_id
    actor_id := signal.actor_id }

/-- `HybridDecisionEngine._parse_ai_response`: coerce an unknown
decision to `escalate`, clamp confidence to `[0,1]`; on parse failure
the safe default keyed on `risk_score ≥ 0.6`. -/
def parse_ai_response (r : AIResponse) (signal : RiskSignal) : String × ℚ × String :=
  match r with
  | .parsed d c reason =>
    ( if d = "allow" ∨ d = "throttle" ∨ d = "block" ∨ d = "escalate" then d else "escalate"
    , max 0 (min 1 c), reason )
  | .parseFailure =>
    if signal.risk_score ≥ 3/5 then
      ("throttle", 3/5, "AI response parsing failed, using fallback")
    else
      ("allow", 3/5, "AI response parsing failed, using fallback")

/-- `HybridDecisionEngine._query_ai`: rule fallback when no client is
configured or the backend call raises; otherwise the parsed response
tagged `source="ai"`. -/
def query_ai (low high : ℚ) (signal : RiskSignal) (ai : AIOutcome) : DecisionResult :=
  match ai with
  | .unavailable => rule_decision low high signal none
  | .backendError => rule_decision low high signal none
  | .response r =>
    let p := parse_ai_response r signal
    { decision := p.1
      confidence := p.2.1
      reason := p.2.2
      source := "ai"
      latency_ms := 0
      provisional := false
      correlation_id := signal.correlation_id
      actor_id := signal.actor_id }

/-- `HybridDecisionEngine._ai_decision`: rule fallback (uncached) on
queue overflow; otherwise the `_query_ai` result is returned and put
into the cache unconditionally.  The semaphore and the transient queue
counter (incremented then decremented in `finally`) do not affect the
returned pair. -/
def ai_decision (st : EngineState) (now : ℚ) (signal : RiskSignal) (key : Pattern)
    (ai : AIOutcome) : DecisionResult × DecisionCache :=
  if st.ai_queue_size ≥ st.max_queue_size then
    (rule_decision st.low_threshold st.high_threshold signal none, st.cache)
  else
    let result := query_ai st.low_threshold st.high_threshold signal ai
    (result, cachePut st.cache now key result)

/-- `HybridDecisionEngine.decide`, returning the result and the cache
state after the call.  On a cache hit the engine overwrites
`latency_ms`, `correlation_id` and `actor_id` on the returned copy. -/
def decide (st : EngineState) (now : ℚ) (signal : RiskSignal) (ai : AIOutcome) :
    DecisionResult × DecisionCache :=
  if st.mode = DecisionMode.FAST then
    (rule_decision st.low_threshold st.high_threshold signal none, st.cache)
  else if signal.risk_score < st.low_threshold then
    (rule_decision st.low_threshold st.high_threshold signal (some "allow"), st.cache)
  else if signal.risk_score > st.high_threshold then
    (rule_decision st.low_threshold st.high_threshold signal (some "block"), st.cache)
  else
    let key := compute_pattern_hash signal
    match cacheGet st.cache now key with
    | (some cached, c2) =>
      ( { cached with latency_ms := 0
                      correlation_id := signal.correlation_id
                      actor_id := signal.actor_id }
      , c2 )
    | (none, c2) =>
      if st.mode = DecisionMode.HYBRID then
        ai_decision { st with cache := c2 } now signal key ai
      else if st.mode = DecisionMode.FULL_AI then
        ai_decision { st with cache := c2 } now signal key ai
      else
        (rule_decision st.low_threshold st.high_threshold signal none, c2)

/-- `agents/frequency_tracker.py` — `WindowedCounter`, restricted to a
single actor (the per-actor bucket dicts are independent; `record_event`
and `get_frequency` for actor `A` read and write only `A`'s dict).
`buckets` is the association list `bucket_timestamp → count`; Python's
`defaultdict(int)` appends a fresh key at the end. -/
structure WindowedCounter where
  window_size_seconds : ℤ := 60
  bucket_size_seconds : ℤ := 5
  buckets : List (ℤ × ℕ) := []

/-- `WindowedCounter._get_bucket_key`:
`int(ts // bucket_size) * bucket_size` (floor division). -/
def getBucketKey (bucket_size : ℤ) (ts : ℚ) : ℤ :=
  ⌊ts / (bucket_size : ℚ)⌋ * bucket_size

/-- `self._buckets[actor_id][bucket_key] += 1` on a `defaultdict`. -/
def bumpBucket : List (ℤ × ℕ) → ℤ → List (ℤ × ℕ)
  | [], k => [(k, 1)]
  | (k0, c) :: rest, k =>
    if k0 = k then (k0, c + 1) :: rest else (k0, c) :: bumpBucket rest k

/-- `WindowedCounter._cleanup_old_buckets`: delete every bucket whose
key is `< current_time - window_size`. -/
def cleanupOldBuckets (wc : WindowedCounter) (current_time : ℚ) : WindowedCounter :=
  { wc with buckets :=
      wc.buckets.filter (fun p => ¬((p.1 : ℚ) < current_time - (wc.window_size_seconds : ℚ))) }

/-- The windowed read in the body of `get_frequency`, at an
already-resolved `current_time`, ignoring the lock: sum of the counts
of buckets whose key is `≥ current_time - window_size`.  This is the
value a lock-free reader of the bucket dict would compute; the faithful
lock-aware wrapper is `get_frequency` below. -/
def getFrequencyAt (wc : WindowedCounter) (current_time : ℚ) : ℕ :=
  ((wc.buckets.filter
      (fun p => current_time - (wc.window_size_seconds : ℚ) ≤ (p.1 : ℚ))).map Prod.snd).sum

/-- The `x = x or time.time()` idiom used by `record_event`,
`get_frequency` and `_get_bucket_key`: a missing or falsy (zero)
timestamp is replaced by the wall clock. -/
def resolveTime (wallclock : ℚ) (timestamp : Option ℚ) : ℚ :=
  match timestamp with
  | none => wallclock
  | some t => if t = 0 then wallclock else t

/-- The mutation `record_event` performs inside its `with self._lock`
block before the deadlocking read: bump the event's bucket, then clean
up old buckets. -/
def recordMutation (wc : WindowedCounter) (current_time : ℚ) : WindowedCounter :=
  cleanupOldBuckets
    { wc with buckets := bumpBucket wc.buckets (getBucketKey wc.bucket_size_seconds current_time) }
    current_time

/-- The bucket-dict state after applying the `record_event` mutation
for each resolved timestamp in turn. -/
def recordAll (wc : WindowedCounter) (ts : List ℚ) : WindowedCounter :=
  ts.foldl recordMutation wc

/-- The counter together with its `threading.Lock` — a non-reentrant
lock, made explicit because `record_event` re-acquires it while holding
it.  An operation that blocks forever returns `none`. -/
structure LockedCounter where
  counter : WindowedCounter := {}
  locked : Bool := false

/-- `WindowedCounter.get_frequency`: resolve the time (falsy fallback to
the wall clock), then read under `with self._lock`.  If the lock is
already held the acquisition blocks forever (`none`). -/
def get_frequency (s : LockedCounter) (wallclock : ℚ) (current_time : Option ℚ) : Option ℕ :=
  if s.locked then none
  else some (getFrequencyAt s.counter (resolveTime wallclock current_time))

/-- `WindowedCounter.record_event`: resolve the time, acquire the lock
(blocking forever if it is already held), bump and clean up, then
`return self.get_frequency(actor_id, current_time)` — called while the
same non-reentrant lock is still held, so the read blocks forever and
the call never returns.  The shared state it leaves behind is the
mutated bucket dict with the lock held. -/
def record_event (s : LockedCounter) (wallclock : ℚ) (timestamp : Option ℚ) :
    Option ℕ × LockedCounter :=
  if s.locked then (none, s)
  else
    let t := resolveTime wallclock timestamp
    let s2 : LockedCounter := { counter := recordMutation s.counter t, locked := true }
    (get_frequency s2 wallclock (some t), s2)

/-- `SignalProcessor.process_event` for the tracked actor.  With
`use_real_frequency=True` (the default) it calls
`FrequencyTracker.record_event(actor, timestamp/1000)`, which delegates
to `WindowedCounter.record_event` and therefore never returns (`none`:
no signal is ever produced).  With `use_real_frequency=False` the
tracker is skipped and scoring uses the event's own
`frequency_last_60s`.  The fresh `uuid4` correlation id and the
wall-clock `processing_timestamp` are modelled as constants (no claim
depends on them). -/
def process_event (s : LockedCounter) (wallclock : ℚ) (event : EnterpriseActionEvent)
    (use_real_frequency : Bool) : Option RiskSignal × LockedCounter :=
  if use_real_frequency then
    let r := record_event s wallclock (some ((event.timestamp : ℚ) / 1000))
    match r.1 with
    | none => (none, r.2)
    | some f =>
      ( some { actor_id := event.actor_id
               risk_score := calculate_risk_score defaultRiskScoringConfig event (some (f : ℤ))
               risk_factors := identify_risk_factors defaultRiskScoringConfig event (some (f : ℤ))
               original_event := event
               processing_timestamp := 0
               correlation_id := "" }
      , r.2 )
  else
    ( some { actor_id := event.actor_id
             risk_score := calculate_risk_score defaultRiskScoringConfig event none
             risk_factors := identify_risk_factors defaultRiskScoringConfig event none
             original_event := event
             processing_timestamp := 0
             correlation_id := "" }
    , s )

/-- `agents/action_agent.py` — `RateLimiter.is_allowed` for one actor
(`self._requests[actor_id]` is per-actor; the window and limit are the
dataclass fields, defaults 60 s and 5).  Evict timestamps `≤ now -
window`, deny at capacity without recording, otherwise record `now`. -/
def rateLimiterIsAllowed (window_seconds : ℚ) (max_requests : ℕ)
    (requests : List ℚ) (now : ℚ) : Bool × List ℚ :=
  let kept := requests.filter (fun t => now - window_seconds < t)
  if kept.length ≥ max_requests then
    (false, kept)
  else
    (true, kept ++ [now])

/-- One consultation step: update the stored timestamps and count the
call if it was allowed. -/
def limiterStep (window_seconds : ℚ) (max_requests : ℕ)
    (acc : List ℚ × ℕ) (now : ℚ) : List ℚ × ℕ :=
  let r := rateLimiterIsAllowed window_seconds max_requests acc.1 now
  (r.2, acc.2 + (if r.1 then 1 else 0))

/-- Run a sequence of `is_allowed` consultations from an initial
timestamp list, returning the final list and how many calls returned
`True`. -/
def runLimiter (window_seconds : ℚ) (max_requests : ℕ)
    (calls : List ℚ) (start : List ℚ) : List ℚ × ℕ :=
  calls.foldl (limiterStep window_seconds max_requests) (start, 0)

/-- The dictionary produced by `json.loads` for an
`EnterpriseActionEvent` payload (raw field values, unvalidated). -/
structure EnterpriseActionEventData where
  actor_id : String
  action : String
  role : String
  frequency_last_60s : ℤ
  geo_change : Bool
  timestamp : ℤ
  session_id : String
  resource_sensitivity : String

/-- `EnterpriseActionEvent.from_json`: `cls(**data)` — every field is
taken from the parsed JSON verbatim. -/
def event_from_data (d : EnterpriseActionEventData) : EnterpriseActionEvent :=
  { actor_id := d.actor_id
    action := d.action
    role := d.role
    frequency_last_60s := d.frequency_last_60s
    geo_change := d.geo_change
    timestamp := d.timestamp
    session_id := d.session_id
    resource_sensitivity := d.resource_sensitivity }

/-- Parsed JSON for a `RiskSignal` payload. -/
structure RiskSignalData where
  actor_id : String
  risk_score : ℚ
  risk_factors : List String
  original_event : EnterpriseActionEventData
  processing_timestamp : ℤ
  correlation_id : String

/-- `RiskSignal.from_json`: builds the nested event with
`EnterpriseActionEvent(**data["original_event"])` and copies every
field from the parsed JSON verbatim. -/
def risk_signal_from_data (d : RiskSignalData) : RiskSignal :=
  { actor_id := d.actor_id
    risk_score := d.risk_score
    risk_factors := d.risk_factors
    original_event := event_from_data d.original_event
    processing_timestamp := d.processing_timestamp
    correlation_id := d.correlation_id }

/-- Parsed JSON for a `RiskDecision` payload. -/
structure RiskDecisionData where
  actor_id : String
  decision : String
  confidence : ℚ
  reason : String
  correlation_id : String
  decision_timestamp : ℤ

/-- `RiskDecision.from_json`: `cls(**data)` — verbatim fields. -/
def risk_decision_from_data (d : RiskDecisionData) : RiskDecision :=
  { actor_id := d.actor_id
    decision := d.decision
    confidence := d.confidence
    reason := d.reason
    correlation_id := d.correlation_id
    decision_timestamp := d.decision_timestamp }

/-- One observable cache operation, for cache-invariant claims. -/
inductive CacheOp where
  | put (key : Pattern) (r : DecisionResult) (now : ℚ)
  | get (key : Pattern) (now : ℚ)

/-- Apply one cache operation to the cache state. -/
def applyCacheOp (c : DecisionCache) : CacheOp → DecisionCache
  | .put key r now => cachePut c now key r
  | .get key now => (cacheGet c now key).2

/-- Apply a sequence of cache operations. -/
def applyCacheOps (c : DecisionCache) (ops : List CacheOp) : DecisionCache :=
  ops.foldl applyCacheOp c

/-- A `DecisionCache` as constructed by `DecisionCache(max_size=N,
ttl_seconds=T)`: empty mapping. -/
def emptyCache (max_size : ℕ) (ttl_seconds : ℚ) : DecisionCache :=
  { max_size := max_size, ttl_seconds := ttl_seconds, cache := [] }

/-- Spec-side rule-decision band table
(`s<0.3 → allow@0.9; 0.3≤s<0.5 → allow@0.7; 0.5≤s≤0.8 → throttle@0.7;
s>0.8 → block@0.9`), for comparison with the engine's rule path. -/
def specRuleBand (s : ℚ) : String × ℚ :=
  if s < 3/10 then ("allow", 9/10)
  else if s < 1/2 then ("allow", 7/10)
  else if s ≤ 4/5 then ("throttle", 7/10)
  else ("block", 9/10)

/-- Sum of the bucket counts whose key is `≥ cutoff`
(the body of `get_frequency`, with the cutoff made explicit). -/
def winSum (l : List (ℤ × ℕ)) (cutoff : ℚ) : ℕ :=
  ((l.filter (fun p => cutoff ≤ (p.1 : ℚ))).map Prod.snd).sum

/-- Concrete fixtures used by witnesses and counterexamples below. -/
def e0 : EnterpriseActionEvent :=
  { actor_id := "u", action := "login", role := "admin", frequency_last_60s := 0,
    geo_change := true, timestamp := 0, session_id := "s", resource_sensitivity := "critical" }

/-- A low-risk concrete event (no geo change, low sensitivity). -/
def eLow : EnterpriseActionEvent :=
  { actor_id := "v", action := "file_read", role := "developer", frequency_last_60s := 0,
    geo_change := false, timestamp := 0, session_id := "s", resource_sensitivity := "low" }

/-- A concrete ambiguous-band risk signal (score 0.5). -/
def sig0 : RiskSignal :=
  { actor_id := "u1", risk_score := 1/2, risk_factors := [], original_event := e0,
    processing_timestamp := 0, correlation_id := "c1" }

/-- The default-constructed engine state (HYBRID mode). -/
def st0 : EngineState := {}

/-- An engine state in FAST mode. -/
def stFast : EngineState := { mode := DecisionMode.FAST }

/-- The signal `process_event` produces for `eLow` when frequency
tracking is disabled. -/
def procLow : RiskSignal :=
  { actor_id := eLow.actor_id
    risk_score := calculate_risk_score defaultRiskScoringConfig eLow none
    risk_factors := identify_risk_factors defaultRiskScoringConfig eLow none
    original_event := eLow
    processing_timestamp := 0
    correlation_id := "" }

/-- A concrete stored decision result. -/
def r0 : DecisionResult :=
  { decision := "escalate", confidence := 11/20, reason := "ai said so", source := "ai",
    latency_ms := 42, provisional := false, correlation_id := "orig-c", actor_id := "orig-a" }

/-- An engine state holding a cache entry for `sig0`'s fingerprint. -/
def stHit : EngineState :=
  { st0 with cache := { st0.cache with cache := [(compute_pattern_hash sig0, ⟨r0, 0⟩)] } }

/-- A one-slot cache at capacity (for the LRU-eviction witness). -/
def cFull : DecisionCache :=
  { max_size := 1, ttl_seconds := 300,
    cache := [(compute_pattern_hash sig0, ⟨r0, 0⟩)] }

/-- A fingerprint distinct from `sig0`'s. -/
def keyB : Pattern :=
  { action := "x", role := "y", risk_bucket := 0, factors := [], geo_change := false,
    sensitivity := "low" }

/-- Raw parsed-JSON event data with a negative frequency. -/
def deOut : EnterpriseActionEventData :=
  { actor_id := "u", action := "login", role := "admin", frequency_last_60s := -7,
    geo_change := false, timestamp := 0, session_id := "s", resource_sensitivity := "low" }

/-- Raw parsed-JSON risk-signal data with `risk_score = 1.5`. -/
def dsOut : RiskSignalData :=
  { actor_id := "u", risk_score := 3/2, risk_factors := [], original_event := deOut,
    processing_timestamp := 0, correlation_id := "c" }

/-- Raw parsed-JSON decision data with `confidence = 1.5`. -/
def ddOut : RiskDecisionData :=
  { actor_id := "u", decision := "allow", confidence := 3/2, reason := "r",
    correlation_id := "c", decision_timestamp := 0 }


/-- C1: for every event and every optional tracker reading, the risk
score returned by `calculate_risk_score` (default config) equals the
spec's weighted sum `0.30*freq_sub + 0.25*geo_sub + 0.25*sens_sub +
0.20*role_action_sub` clamped to `[0,1]`, with the subscore tables as
stated in the spec. -/
theorem calculate_risk_score_eq_spec_score (e : EnterpriseActionEvent) (rf : Option ℤ) :
    calculate_risk_score defaultRiskScoringConfig e rf = spec_score e rf := by
  unfold calculate_risk_score spec_score freq_score_of spec_freq_sub spec_geo_sub spec_sens_sub
    spec_role_action_sub defaultRiskScoringConfig
  simp only [alookup, Option.getD]
  split_ifs <;> norm_num

/-- C6: if an event has `geo_change`, critical sensitivity, and the
frequency used for scoring exceeds 20, the computed risk score is at
least 0.8. -/
theorem geo_critical_highfreq_score_ge (e : EnterpriseActionEvent) (rf : Option ℤ)
    (h1 : e.geo_change = true) (h2 : e.resource_sensitivity = "critical")
    (h3 : 20 < rf.getD e.frequency_last_60s) :
    4/5 ≤ calculate_risk_score defaultRiskScoringConfig e rf := by
  unfold calculate_risk_score freq_score_of defaultRiskScoringConfig
  simp only [alookup, h1, h2, if_true]
  rw [if_pos h3]
  simp +decide only [Option.getD, if_true, if_false]
  split_ifs <;> norm_num

/-- Witness for C6 at a concrete event with frequency reading 21. -/
theorem geo_critical_highfreq_score_ge_witness :
    e0.geo_change = true ∧ e0.resource_sensitivity = "critical" ∧
      20 < (some (21:ℤ)).getD e0.frequency_last_60s ∧
      4/5 ≤ calculate_risk_score defaultRiskScoringConfig e0 (some 21) :=
  ⟨rfl, rfl, by norm_num,
    geo_critical_highfreq_score_ge e0 (some 21) rfl rfl (by norm_num)⟩

/-- Helper: the engine's internal `_rule_decision` with no forced
decision follows the spec band table at the default thresholds. -/
theorem rule_decision_none_band (low high : ℚ) (signal : RiskSignal)
    (hlo : low = 3/10) (hhi : high = 4/5) :
    ((rule_decision low high signal none).decision,
      (rule_decision low high signal none).confidence) = specRuleBand signal.risk_score := by
  subst hlo hhi
  unfold rule_decision specRuleBand
  simp only []
  split_ifs <;> first | rfl | (exfalso; first | tauto | linarith)

/-- C4: every rule-path decision follows the band table: `decide` in
FAST mode or on a clear-cut score (below 0.3 or above 0.8) matches
`specRuleBand`, and so does the fallback `_rule_decision` used on AI
failure or queue overflow. -/
theorem rule_path_band_table :
    (∀ (st : EngineState) (now : ℚ) (signal : RiskSignal) (ai : AIOutcome),
      st.low_threshold = 3/10 → st.high_threshold = 4/5 →
      (st.mode = DecisionMode.FAST ∨ signal.risk_score < 3/10 ∨ 4/5 < signal.risk_score) →
      ((decide st now signal ai).1.decision, (decide st now signal ai).1.confidence) =
        specRuleBand signal.risk_score) ∧
    (∀ (signal : RiskSignal),
      ((rule_decision (3/10) (4/5) signal none).decision,
        (rule_decision (3/10) (4/5) signal none).confidence) = specRuleBand signal.risk_score) := by
  constructor
  · intro st now signal ai hlo hhi hpath
    rcases hpath with hm | hs | hs
    · simp only [decide, if_pos hm]
      exact rule_decision_none_band _ _ signal hlo hhi
    · by_cases hm : st.mode = DecisionMode.FAST
      · simp only [decide, if_pos hm]
        exact rule_decision_none_band _ _ signal hlo hhi
      · rw [decide, if_neg hm, if_pos (hlo ▸ hs)]
        unfold rule_decision specRuleBand
        simp only []
        split_ifs <;> first | rfl | (exfalso; first | tauto | linarith)
    · by_cases hm : st.mode = DecisionMode.FAST
      · simp only [decide, if_pos hm]
        exact rule_decision_none_band _ _ signal hlo hhi
      · have hs2 : ¬ signal.risk_score < st.low_threshold := by rw [hlo]; linarith
        rw [decide, if_neg hm, if_neg hs2, if_pos (show signal.risk_score > st.high_threshold by rw [hhi]; linarith)]
        unfold rule_decision specRuleBand
        simp only []
        split_ifs <;> first | rfl | (exfalso; first | tauto | linarith)
  · intro signal
    exact rule_decision_none_band _ _ signal rfl rfl

/-- Witness for C4: FAST-mode decision on the concrete signal `sig0`. -/
theorem rule_path_band_table_witness :
    ((decide stFast 0 sig0 AIOutcome.unavailable).1.decision,
      (decide stFast 0 sig0 AIOutcome.unavailable).1.confidence) = specRuleBand sig0.risk_score :=
  rule_path_band_table.1 stFast 0 sig0 AIOutcome.unavailable rfl rfl (Or.inl rfl)

/-- C3: for an ambiguous-band signal whose fingerprint has an unexpired
cache entry, `decide` returns the stored decision, confidence and
reason, with `source="cache"` and the correlation and actor ids re-bound
to the current signal. -/
theorem decide_cache_hit_rebinds_ids (st : EngineState) (now : ℚ) (signal : RiskSignal)
    (ai : AIOutcome) (e : CacheEntry)
    (hm : ¬ st.mode = DecisionMode.FAST)
    (h1 : ¬ signal.risk_score < st.low_threshold)
    (h2 : ¬ signal.risk_score > st.high_threshold)
    (hl : alookup st.cache.cache (compute_pattern_hash signal) = some e)
    (hex : ¬ now - e.timestamp > st.cache.ttl_seconds) :
    (decide st now signal ai).1 =
      { decision := e.result.decision
        confidence := e.result.confidence
        reason := e.result.reason
        source := "cache"
        latency_ms := 0
        provisional := false
        correlation_id := signal.correlation_id
        actor_id := signal.actor_id } := by
  rw [decide, if_neg hm, if_neg h1, if_neg h2]
  simp only [cacheGet, hl, if_neg hex]

/-- Witness for C3: a concrete cache hit for `sig0` against the stored
result `r0`. -/
theorem decide_cache_hit_rebinds_ids_witness :
    (decide stHit 0 sig0 AIOutcome.unavailable).1 =
      { decision := r0.decision
        confidence := r0.confidence
        reason := r0.reason
        source := "cache"
        latency_ms := 0
        provisional := false
        correlation_id := sig0.correlation_id
        actor_id := sig0.actor_id } :=
  decide_cache_hit_rebinds_ids stHit 0 sig0 AIOutcome.unavailable ⟨r0, 0⟩
    (by norm_num +decide [stHit, st0])
    (by norm_num [stHit, st0, sig0])
    (by norm_num [stHit, st0, sig0])
    (by norm_num +decide [stHit, st0, alookup])
    (by norm_num [stHit, st0])

/-- Counterexample to C2 as stated: on the ambiguous-band signal `sig0`
with the AI client unavailable, the engine returns the rule fallback AND
inserts it into the cache; and on a parse failure the `source="ai"` safe
default is itself inserted into the cache. -/
theorem ai_failure_cached_counterexample :
    (decide st0 0 sig0 AIOutcome.unavailable).1.source = "rule" ∧
    (alookup (decide st0 0 sig0 AIOutcome.unavailable).2.cache
        (compute_pattern_hash sig0)).isSome = true ∧
    (decide st0 0 sig0 (AIOutcome.response AIResponse.parseFailure)).1.source = "ai" ∧
    (decide st0 0 sig0 (AIOutcome.response AIResponse.parseFailure)).1.reason =
      "AI response parsing failed, using fallback" ∧
    alookup (decide st0 0 sig0 (AIOutcome.response AIResponse.parseFailure)).2.cache
        (compute_pattern_hash sig0) =
      some ⟨(decide st0 0 sig0 (AIOutcome.response AIResponse.parseFailure)).1, 0⟩ := by
  refine ⟨?_, ?_, ?_, ?_, ?_⟩ <;>
    norm_num +decide [decide, st0, sig0, e0, ai_decision, query_ai, parse_ai_response,
      rule_decision, cacheGet, alookup, compute_pattern_hash, cachePut, removeKey, roundTo1,
      sortStrings, insertSorted]

/-- C2 (amended): on the AI path, only queue overflow skips cache
insertion (returning the rule fallback uncached); in every other case
the engine caches whatever `_query_ai` returns — including the rule
fallback on AI failure and the parse-failure safe default. -/
theorem ai_path_caches_all_results (st : EngineState) (now : ℚ) (signal : RiskSignal)
    (key : Pattern) (ai : AIOutcome) :
    (st.max_queue_size ≤ st.ai_queue_size →
      ai_decision st now signal key ai =
        (rule_decision st.low_threshold st.high_threshold signal none, st.cache)) ∧
    (st.ai_queue_size < st.max_queue_size →
      ai_decision st now signal key ai =
        (query_ai st.low_threshold st.high_threshold signal ai,
          cachePut st.cache now key
            (query_ai st.low_threshold st.high_threshold signal ai))) := by
  constructor
  · intro h
    rw [ai_decision, if_pos h]
  · intro h
    rw [ai_decision, if_neg (by omega)]

/-- Witness for the amended C2 at a concrete non-overflow state. -/
theorem ai_path_caches_all_results_witness :
    ai_decision st0 0 sig0 keyB AIOutcome.backendError =
      (query_ai st0.low_threshold st0.high_threshold sig0 AIOutcome.backendError,
        cachePut st0.cache 0 keyB
          (query_ai st0.low_threshold st0.high_threshold sig0 AIOutcome.backendError)) :=
  (ai_path_caches_all_results st0 0 sig0 keyB AIOutcome.backendError).2 (by norm_num [st0])

/-- Counterexample to C7 as stated: out-of-range numeric fields
(`risk_score = 1.5`, `frequency_last_60s = -7`, `confidence = 1.5`)
pass through `from_json` deserialization unchanged — nothing is clamped
into range. -/
theorem ingestion_no_clamp_counterexample :
    (risk_signal_from_data dsOut).risk_score = 3/2 ∧
    ¬ (risk_signal_from_data dsOut).risk_score ≤ 1 ∧
    (event_from_data deOut).frequency_last_60s = -7 ∧
    (event_from_data deOut).frequency_last_60s < 0 ∧
    (risk_decision_from_data ddOut).confidence = 3/2 ∧
    ¬ (risk_decision_from_data ddOut).confidence ≤ 1 := by
  refine ⟨rfl, by norm_num [risk_signal_from_data, dsOut], rfl,
    by norm_num [event_from_data, deOut], rfl, by norm_num [risk_decision_from_data, ddOut]⟩

/-- C7 (amended): deserialization preserves numeric fields verbatim:
`from_json` for Event, RiskSignal and RiskDecision copies the parsed
values as-is, with no clamping or normalisation on ingestion. -/
theorem ingestion_preserves_fields (de : EnterpriseActionEventData) (ds : RiskSignalData)
    (dd : RiskDecisionData) :
    (event_from_data de).frequency_last_60s = de.frequency_last_60s ∧
    (risk_signal_from_data ds).risk_score = ds.risk_score ∧
    (risk_signal_from_data ds).original_event.frequency_last_60s =
      ds.original_event.frequency_last_60s ∧
    (risk_decision_from_data dd).confidence = dd.confidence :=
  ⟨rfl, rfl, rfl, rfl⟩

/-- Counterexample to C9 as stated: in the default pipeline
(`use_real_frequency=True`) processing an event never produces a signal
at all — `record_event` re-acquires its own held non-reentrant lock via
`get_frequency` and never returns — so processing the same event twice
yields no decisions, let alone two with identical `decision` fields,
and the lock is left held. -/
theorem fast_mode_idempotence_counterexample :
    (process_event {} 1000 e0 true).1 = none ∧
    (process_event {} 1000 e0 true).2.locked = true ∧
    (process_event (process_event {} 1000 e0 true).2 1000 e0 true).1 = none := by
  refine ⟨?_, ?_, ?_⟩ <;>
    norm_num +decide [process_event, record_event, get_frequency, resolveTime, e0]

/-- C9 (amended): with frequency tracking disabled
(`use_real_frequency=False`) the signal stage is a pure function of the
event, so processing the same event twice gives the same signal and, in
FAST mode, two decisions with identical `decision` fields; with the
default real-frequency tracker, `process_event` never returns a signal
(`record_event` deadlocks re-acquiring its own non-reentrant lock), so
no decision is produced at all, in any mode. -/
theorem fast_mode_idempotence_pure_path :
    (∀ (s : LockedCounter) (wallclock : ℚ) (e : EnterpriseActionEvent),
      (process_event s wallclock e true).1 = none) ∧
    (∀ (s1 s2 : LockedCounter) (w1 w2 : ℚ) (e : EnterpriseActionEvent) (st : EngineState)
      (now1 now2 : ℚ) (ai1 ai2 : AIOutcome) (sig1 sig2 : RiskSignal),
      st.mode = DecisionMode.FAST →
      (process_event s1 w1 e false).1 = some sig1 →
      (process_event s2 w2 e false).1 = some sig2 →
      (decide st now1 sig1 ai1).1.decision = (decide st now2 sig2 ai2).1.decision) := by
  constructor
  · intro s wallclock e
    by_cases hs : s.locked <;>
      simp [process_event, record_event, get_frequency, hs]
  · intro s1 s2 w1 w2 e st now1 now2 ai1 ai2 sig1 sig2 hm h1 h2
    simp only [process_event, if_neg Bool.false_ne_true] at h1 h2
    have h12 : sig1 = sig2 := (Option.some.inj h1).symm.trans (Option.some.inj h2)
    rw [h12]
    simp only [decide, if_pos hm]

/-- Witness for the amended C9: the low-risk event `eLow` processed
twice without the tracker, decided in FAST mode at two different times
and AI outcomes. -/
theorem fast_mode_idempotence_pure_path_witness :
    (decide stFast 0 procLow AIOutcome.unavailable).1.decision =
      (decide stFast 1 procLow AIOutcome.backendError).1.decision :=
  fast_mode_idempotence_pure_path.2 {} {} 0 1 eLow stFast 0 1
    AIOutcome.unavailable AIOutcome.backendError procLow procLow rfl rfl rfl

/-- Helper: windowed sum over a cons cell. -/
theorem winSum_cons (k0 : ℤ) (c : ℕ) (rest : List (ℤ × ℕ)) (cutoff : ℚ) :
    winSum ((k0, c) :: rest) cutoff =
      (if cutoff ≤ (k0 : ℚ) then c else 0) + winSum rest cutoff := by
  by_cases h : cutoff ≤ (k0 : ℚ) <;> simp [winSum, List.filter_cons, h]

/-- Helper: incrementing a bucket adds one to the windowed sum iff the
bucket key is inside the window. -/
theorem winSum_bump (l : List (ℤ × ℕ)) (k : ℤ) (cutoff : ℚ) :
    winSum (bumpBucket l k) cutoff =
      winSum l cutoff + (if cutoff ≤ (k : ℚ) then 1 else 0) := by
  induction l with
  | nil =>
    by_cases h : cutoff ≤ (k : ℚ) <;> simp [bumpBucket, winSum_cons, winSum, h]
  | cons p rest ih =>
    obtain ⟨k0, c⟩ := p
    by_cases hk : k0 = k
    · subst hk
      simp only [bumpBucket, eq_self_iff_true, if_true]
      rw [winSum_cons, winSum_cons]
      by_cases h : cutoff ≤ (k0 : ℚ) <;> simp [h] <;> omega
    · simp only [bumpBucket, if_neg hk]
      rw [winSum_cons, winSum_cons, ih]
      omega

/-- Helper: cleanup (dropping buckets older than `r`) does not change a
windowed sum whose cutoff is at least `r`. -/
theorem winSum_filter_ge (l : List (ℤ × ℕ)) (r cutoff : ℚ) (h : r ≤ cutoff) :
    winSum (l.filter (fun p => ¬((p.1 : ℚ) < r))) cutoff = winSum l cutoff := by
  induction l with
  | nil => rfl
  | cons p rest ih =>
    obtain ⟨k0, c⟩ := p
    rw [List.filter_cons]
    by_cases hk : (k0 : ℚ) < r
    · have hc : ¬ cutoff ≤ (k0 : ℚ) := by linarith
      rw [if_neg (by simpa using hk), ih, winSum_cons, if_neg hc]
      omega
    · rw [if_pos (by simpa using hk), winSum_cons, winSum_cons, ih]

/-- Helper: the `record_event` mutation preserves the configured window
size. -/
theorem recordMutation_window (wc : WindowedCounter) (t : ℚ) :
    (recordMutation wc t).window_size_seconds = wc.window_size_seconds := rfl

/-- Helper: the `record_event` mutation preserves the configured bucket
size. -/
theorem recordMutation_bucket (wc : WindowedCounter) (t : ℚ) :
    (recordMutation wc t).bucket_size_seconds = wc.bucket_size_seconds := rfl

/-- Helper: the bucket list after the `record_event` mutation is
bump-then-cleanup. -/
theorem recordMutation_buckets (wc : WindowedCounter) (t : ℚ) :
    (recordMutation wc t).buckets =
      (bumpBucket wc.buckets (getBucketKey wc.bucket_size_seconds t)).filter
        (fun p => ¬((p.1 : ℚ) < t - (wc.window_size_seconds : ℚ))) := rfl

/-- Helper: after recording a list of timestamps (all at or before the
query time `q`), the windowed sum at `q` counts exactly the recorded
events whose bucket key lies inside the window. -/
theorem winSum_recordAll (q : ℚ) (ts : List ℚ) :
    ∀ (wc : WindowedCounter), wc.window_size_seconds = 60 → wc.bucket_size_seconds = 5 →
      (∀ t ∈ ts, t ≤ q) →
      winSum (recordAll wc ts).buckets (q - 60) =
        winSum wc.buckets (q - 60) +
          (ts.filter (fun t => q - 60 ≤ ((getBucketKey 5 t : ℤ) : ℚ))).length := by
  induction ts with
  | nil => intro wc hw hb hts; simp [recordAll]
  | cons t rest ih =>
    intro wc hw hb hts
    have ht : t ≤ q := hts t (by simp)
    have hrest : ∀ t2 ∈ rest, t2 ≤ q := fun t2 h2 => hts t2 (by simp [h2])
    have hstep : recordAll wc (t :: rest) = recordAll (recordMutation wc t) rest := rfl
    rw [hstep, ih (recordMutation wc t) (by rw [recordMutation_window, hw])
        (by rw [recordMutation_bucket, hb]) hrest]
    rw [recordMutation_buckets, hw, hb]
    have h60 : ((60 : ℤ) : ℚ) = (60 : ℚ) := by norm_num
    rw [h60, winSum_filter_ge _ (t - 60) (q - 60) (by linarith), winSum_bump, List.filter_cons]
    by_cases hkey : q - 60 ≤ ((getBucketKey 5 t : ℤ) : ℚ)
    · rw [if_pos hkey, if_pos (by simpa using hkey), List.length_cons]
      omega
    · rw [if_neg hkey, if_neg (by simpa using hkey)]
      omega

/-- Helper: recording preserves the configured window size. -/
theorem recordAll_window (ts : List ℚ) :
    ∀ (wc : WindowedCounter), (recordAll wc ts).window_size_seconds = wc.window_size_seconds := by
  induction ts with
  | nil => intro wc; rfl
  | cons t rest ih => intro wc; exact (ih (recordMutation wc t)).trans rfl

/-- Helper: the lock-free windowed read is the windowed sum at cutoff
`q - 60`. -/
theorem getFrequencyAt_eq_winSum (wc : WindowedCounter) (q : ℚ)
    (h : wc.window_size_seconds = 60) :
    getFrequencyAt wc q = winSum wc.buckets (q - 60) := by
  unfold getFrequencyAt winSum
  rw [h]
  push_cast
  rfl

/-- Helper: a timestamp's bucket key is at most the timestamp. -/
theorem bucket_key_le (t : ℚ) : ((getBucketKey 5 t : ℤ) : ℚ) ≤ t := by
  unfold getBucketKey
  push_cast
  have hfl : ((⌊t / ((5:ℤ) : ℚ)⌋ : ℤ) : ℚ) ≤ t / ((5:ℤ) : ℚ) := Int.floor_le _
  push_cast at hfl
  linarith

/-- C5 (amended): `record_event` never returns — inside its locked block
it calls `get_frequency`, which re-acquires the held non-reentrant lock
— and it leaves the lock held, so later `get` calls block forever too;
the round-trip as specified is unexecutable.  The bucket mutation does
complete before the deadlock, and the intended windowed read of the
mutated state (the body of `get_frequency`) returns the number of
recorded events whose 5-second bucket start lies within the window of
the query time — not the number within one window length of it — and 0
once every bucket has expired. -/
theorem freq_window_bucketed_roundtrip :
    (∀ (s : LockedCounter) (wallclock : ℚ) (timestamp : Option ℚ),
      (record_event s wallclock timestamp).1 = none) ∧
    (∀ (s : LockedCounter) (wallclock : ℚ) (timestamp : Option ℚ), s.locked = false →
      (record_event s wallclock timestamp).2.locked = true) ∧
    (∀ (s : LockedCounter) (wallclock : ℚ) (current_time : Option ℚ), s.locked = true →
      get_frequency s wallclock current_time = none) ∧
    (∀ (ts : List ℚ) (q : ℚ), (∀ t ∈ ts, t ≤ q) →
      getFrequencyAt (recordAll {} ts) q =
        (ts.filter (fun t => q - 60 ≤ ((getBucketKey 5 t : ℤ) : ℚ))).length ∧
      ((∀ t ∈ ts, t + 60 < q) → getFrequencyAt (recordAll {} ts) q = 0)) := by
  refine ⟨?_, ?_, ?_, ?_⟩
  · intro s wallclock timestamp
    by_cases hs : s.locked <;> simp [record_event, get_frequency, hs]
  · intro s wallclock timestamp hs
    simp [record_event, hs]
  · intro s wallclock current_time hs
    simp [get_frequency, hs]
  · intro ts q hts
    have hmain := winSum_recordAll q ts {} rfl rfl hts
    have hfreq : getFrequencyAt (recordAll {} ts) q = winSum (recordAll {} ts).buckets (q - 60) :=
      getFrequencyAt_eq_winSum _ q (recordAll_window ts {})
    have h1 : getFrequencyAt (recordAll {} ts) q =
        (ts.filter (fun t => q - 60 ≤ ((getBucketKey 5 t : ℤ) : ℚ))).length := by
      rw [hfreq, hmain]
      simp [winSum]
    refine ⟨h1, fun h2 => ?_⟩
    rw [h1, List.length_eq_zero]
    rw [List.filter_eq_nil_iff]
    intro t htmem
    have := bucket_key_le t
    have := h2 t htmem
    simp only [decide_eq_true_eq]
    intro hcon
    linarith

/-- Counterexample to C5 as stated: recording one event at `t = 3` never
returns — the code deadlocks on its own lock — and afterwards `get`
blocks forever as well, so `get(A)` never yields the claimed `k = 1`;
moreover, even the intended windowed read of the mutated bucket state at
query time `q = 62` gives 0, not 1, although the event lies within one
window length of the query (`2 ≤ 3 ≤ 62`): its bucket starts at 0,
below the cutoff `q - 60 = 2`. -/
theorem freq_window_roundtrip_counterexample :
    (record_event {} 5 (some 3)).1 = none ∧
    (record_event {} 5 (some 3)).2.locked = true ∧
    get_frequency (record_event {} 5 (some 3)).2 62 (some 62) = none ∧
    ((62 : ℚ) - 60 ≤ 3 ∧ (3 : ℚ) ≤ 62) ∧
    getFrequencyAt (record_event {} 5 (some 3)).2.counter 62 = 0 ∧
    (0 : ℕ) ≠ 1 := by
  refine ⟨?_, ?_, ?_, ⟨by norm_num, by norm_num⟩, ?_, by norm_num⟩ <;>
    norm_num [record_event, get_frequency, resolveTime, recordMutation, getFrequencyAt,
      cleanupOldBuckets, bumpBucket, getBucketKey]

/-- Witness for the amended C5: a concrete deadlocking record at `t = 3`
and the bucket-aligned read of two events at 10 and 12 queried at 30. -/
theorem freq_window_bucketed_roundtrip_witness :
    (record_event {} 5 (some 3)).1 = none ∧
    getFrequencyAt (recordAll {} [(10 : ℚ), 12]) 30 = 2 :=
  ⟨freq_window_bucketed_roundtrip.1 {} 5 (some 3),
    ((freq_window_bucketed_roundtrip.2.2.2 [(10 : ℚ), 12] 30 (by norm_num)).1).trans
      (by norm_num [getBucketKey])⟩

/-- Helper: deleting a key never lengthens the mapping. -/
theorem removeKey_length_le (l : List (Pattern × CacheEntry)) (key : Pattern) :
    (removeKey l key).length ≤ l.length :=
  List.length_filter_le _ _

/-- Helper: deleting a present key strictly shortens the mapping. -/
theorem alookup_some_removeKey_length {l : List (Pattern × CacheEntry)} {key : Pattern}
    {e : CacheEntry} (h : alookup l key = some e) :
    (removeKey l key).length < l.length := by
  induction l with
  | nil => simp [alookup] at h
  | cons p rest ih =>
    obtain ⟨k0, v⟩ := p
    by_cases hk : key = k0
    · subst hk
      have : (removeKey ((key, v) :: rest) key) = removeKey rest key := by
        simp [removeKey, List.filter_cons]
      rw [this]
      calc (removeKey rest key).length ≤ rest.length := removeKey_length_le rest key
        _ < ((key, v) :: rest).length := by simp
    · have hrest : alookup rest key = some e := by
        simpa [alookup, hk] using h
      have : (removeKey ((k0, v) :: rest) key) = (k0, v) :: removeKey rest key := by
        simp [removeKey, List.filter_cons]
        intro hc
        exact (hk hc.symm).elim
      rw [this]
      simpa using ih hrest

/-- Helper: deleting an absent key is a no-op. -/
theorem alookup_none_removeKey {l : List (Pattern × CacheEntry)} {key : Pattern}
    (h : alookup l key = none) : removeKey l key = l := by
  induction l with
  | nil => rfl
  | cons p rest ih =>
    obtain ⟨k0, v⟩ := p
    by_cases hk : key = k0
    · simp [alookup, hk] at h
    · have hrest : alookup rest key = none := by simpa [alookup, hk] using h
      have hne : k0 ≠ key := fun hc => hk hc.symm
      simp [removeKey, List.filter_cons, hne] at ih ⊢
      exact ih hrest

/-- Helper: `put` preserves the configured capacity. -/
theorem cachePut_max_size (c : DecisionCache) (now : ℚ) (key : Pattern) (r : DecisionResult) :
    (cachePut c now key r).max_size = c.max_size := rfl

/-- Helper: `get` preserves the configured capacity. -/
theorem cacheGet_max_size (c : DecisionCache) (now : ℚ) (key : Pattern) :
    ((cacheGet c now key).2).max_size = c.max_size := by
  unfold cacheGet
  rcases h : alookup c.cache key with _ | e
  · rfl
  · by_cases hx : now - e.timestamp > c.ttl_seconds <;> simp [hx]

/-- Helper: after any `put` the cache holds at most `max_size` entries
(capacity at least 1). -/
theorem cachePut_length_le (c : DecisionCache) (now : ℚ) (key : Pattern) (r : DecisionResult)
    (h : 1 ≤ c.max_size) : (cachePut c now key r).cache.length ≤ c.max_size := by
  unfold cachePut
  simp only [List.length_append, List.length_drop, List.length_cons, List.length_nil]
  omega

/-- Helper: `get` never grows the cache. -/
theorem cacheGet_length_le (c : DecisionCache) (now : ℚ) (key : Pattern) :
    ((cacheGet c now key).2).cache.length ≤ c.cache.length := by
  unfold cacheGet
  rcases h : alookup c.cache key with _ | e
  · simp
  · by_cases hx : now - e.timestamp > c.ttl_seconds
    · simp only [hx, if_true]
      exact List.length_filter_le _ _
    · simp only [hx, if_false]
      simp only [List.length_append, List.length_cons, List.length_nil]
      have := alookup_some_removeKey_length h
      omega

/-- Helper: the size bound is invariant under any operation sequence. -/
theorem applyCacheOps_length_le (N : ℕ) (hN : 1 ≤ N) :
    ∀ (ops : List CacheOp) (c : DecisionCache), c.max_size = N → c.cache.length ≤ N →
      (applyCacheOps c ops).cache.length ≤ N := by
  intro ops
  induction ops with
  | nil => intro c hm hl; exact hl
  | cons op rest ih =>
    intro c hm hl
    have hstep : applyCacheOps c (op :: rest) = applyCacheOps (applyCacheOp c op) rest := rfl
    rw [hstep]
    cases op with
    | put key r now =>
      exact ih _ ((cachePut_max_size c now key r).trans hm)
        (hm ▸ cachePut_length_le c now key r (hm ▸ hN))
    | get key now =>
      exact ih _ ((cacheGet_max_size c now key).trans hm)
        (le_trans (cacheGet_length_le c now key) hl)

/-- C8: for any capacity `N ≥ 1`: (a) the number of stored entries never
exceeds `N` under any put/get sequence from a fresh cache; (b) an
insertion of a fresh key at capacity discards the least-recently-used
entry (the head of the access order); (c) a get hit moves the accessed
entry to the most-recently-used position (the tail). -/
theorem cache_lru_invariants (N : ℕ) (T : ℚ) (hN : 1 ≤ N) :
    (∀ (ops : List CacheOp), (applyCacheOps (emptyCache N T) ops).cache.length ≤ N) ∧
    (∀ (c : DecisionCache) (now : ℚ) (key : Pattern) (r : DecisionResult),
      c.max_size = N → c.cache.length = N → alookup c.cache key = none →
      (cachePut c now key r).cache = c.cache.drop 1 ++ [(key, ⟨r, now⟩)]) ∧
    (∀ (c : DecisionCache) (now : ℚ) (key : Pattern) (e : CacheEntry),
      alookup c.cache key = some e → ¬ now - e.timestamp > c.ttl_seconds →
      ((cacheGet c now key).2).cache = removeKey c.cache key ++ [(key, e)]) := by
  refine ⟨?_, ?_, ?_⟩
  · intro ops
    exact applyCacheOps_length_le N hN ops (emptyCache N T) rfl (by simp [emptyCache])
  · intro c now key r hm hl hnone
    unfold cachePut
    rw [alookup_none_removeKey hnone]
    simp only [hl, hm]
    have : N + 1 - N = 1 := by omega
    rw [this]
  · intro c now key e hsome hex
    unfold cacheGet
    rw [hsome]
    simp only [hex, if_false]

/-- Witness for C8: inserting a fresh key into a full one-slot cache
evicts the resident entry. -/
theorem cache_lru_invariants_witness :
    (cachePut cFull 0 keyB r0).cache =
      cFull.cache.drop 1 ++ [(keyB, ⟨r0, 0⟩)] :=
  (cache_lru_invariants 1 300 (by norm_num)).2.1 cFull 0 keyB r0 rfl rfl
    (by norm_num +decide [cFull, alookup, keyB, compute_pattern_hash, sig0, e0, roundTo1,
      sortStrings])

/-- Helper: the stored timestamp list never exceeds `max_requests`. -/
theorem limiter_fold_length_le (w : ℚ) (m : ℕ) :
    ∀ (calls : List ℚ) (l : List ℚ) (cnt : ℕ), l.length ≤ m →
      ((calls.foldl (limiterStep w m) (l, cnt)).1).length ≤ m := by
  intro calls
  induction calls with
  | nil => intro l cnt hl; exact hl
  | cons now rest ih =>
    intro l cnt hl
    have hstep : (now :: rest).foldl (limiterStep w m) (l, cnt) =
        rest.foldl (limiterStep w m) (limiterStep w m (l, cnt) now) := rfl
    rw [hstep]
    unfold limiterStep rateLimiterIsAllowed
    by_cases hcap : (l.filter (fun t => now - w < t)).length ≥ m
    · simp only [hcap, if_true]
      exact ih _ _ (le_trans (List.length_filter_le _ _) hl)
    · simp only [hcap, if_false]
      apply ih
      simp only [List.length_append, List.length_cons, List.length_nil]
      omega

/-- Helper: with no evictions possible, the number of allowed calls is
`min (calls) (max_requests - stored)`. -/
theorem limiter_fold_count (w : ℚ) (m : ℕ) :
    ∀ (calls : List ℚ) (l : List ℚ) (cnt : ℕ),
      (∀ a ∈ calls, ∀ b ∈ l, a - w < b) →
      (∀ a ∈ calls, ∀ b ∈ calls, a - w < b) →
      l.length ≤ m →
      (calls.foldl (limiterStep w m) (l, cnt)).2 = cnt + min calls.length (m - l.length) := by
  intro calls
  induction calls with
  | nil => intro l cnt _ _ _; simp
  | cons now rest ih =>
    intro l cnt hml hcalls hl
    have hnow_l : ∀ b ∈ l, now - w < b := hml now (by simp)
    have hkept : l.filter (fun t => now - w < t) = l := by
      rw [List.filter_eq_self]
      intro b hb
      simpa using hnow_l b hb
    have hstep : (now :: rest).foldl (limiterStep w m) (l, cnt) =
        rest.foldl (limiterStep w m) (limiterStep w m (l, cnt) now) := rfl
    rw [hstep]
    by_cases hcap : l.length ≥ m
    · have hlm : l.length = m := le_antisymm hl hcap
      have hone : limiterStep w m (l, cnt) now = (l, cnt) := by
        unfold limiterStep rateLimiterIsAllowed
        simp [hkept, hcap]
      rw [hone, ih l cnt (fun a ha => hml a (by simp [ha]))
        (fun a ha b hb => hcalls a (by simp [ha]) b (by simp [hb])) hl]
      simp only [List.length_cons]
      omega
    · have hone : limiterStep w m (l, cnt) now = (l ++ [now], cnt + 1) := by
        unfold limiterStep rateLimiterIsAllowed
        simp [hkept, hcap]
      rw [hone]
      have hml2 : ∀ a ∈ rest, ∀ b ∈ l ++ [now], a - w < b := by
        intro a ha b hb
        rcases List.mem_append.mp hb with hbl | hbn
        · exact hml a (by simp [ha]) b hbl
        · have : b = now := by simpa using hbn
          subst this
          exact hcalls a (by simp [ha]) b (by simp)
      have hcalls2 : ∀ a ∈ rest, ∀ b ∈ rest, a - w < b := by
        intro a ha b hb
        exact hcalls a (by simp [ha]) b (by simp [hb])
      have hl2 : (l ++ [now]).length ≤ m := by
        simp only [List.length_append, List.length_cons, List.length_nil]
        omega
      rw [ih (l ++ [now]) (cnt + 1) hml2 hcalls2 hl2]
      simp only [List.length_cons, List.length_append, List.length_nil]
      omega

/-- C10: (a) a denied consultation appends nothing (the resulting list
is a sublist of the input); (b) the per-actor timestamp list never holds
more than `max_requests` entries; (c) when all consultations fall within
one window of each other, exactly `min (count, max_requests)` of them
return `True`. -/
theorem rate_limiter_invariants (w : ℚ) (m : ℕ) :
    (∀ (l : List ℚ) (now : ℚ), (rateLimiterIsAllowed w m l now).1 = false →
      (rateLimiterIsAllowed w m l now).2.Sublist l) ∧
    (∀ (calls start : List ℚ), start.length ≤ m →
      ((runLimiter w m calls start).1).length ≤ m) ∧
    (∀ (calls : List ℚ), (∀ a ∈ calls, ∀ b ∈ calls, a - w < b) →
      (runLimiter w m calls []).2 = min calls.length m) := by
  refine ⟨?_, ?_, ?_⟩
  · intro l now hfalse
    unfold rateLimiterIsAllowed at hfalse ⊢
    by_cases hcap : (l.filter (fun t => now - w < t)).length ≥ m
    · simp only [hcap, if_true]
      exact List.filter_sublist _
    · simp [hcap] at hfalse
  · intro calls start hstart
    exact limiter_fold_length_le w m calls start 0 hstart
  · intro calls hcalls
    have := limiter_fold_count w m calls [] 0 (by simp) hcalls (by simp)
    simpa [runLimiter] using this

/-- Witness for C10: three calls within one window at capacity 2 yield
exactly 2 allowed. -/
theorem rate_limiter_invariants_witness :
    (runLimiter 60 2 [(0 : ℚ), 1, 2] []).2 = 2 :=
  ((rate_limiter_invariants 60 2).2.2 [(0 : ℚ), 1, 2]
    (by intro a ha b hb; fin_cases ha <;> fin_cases hb <;> norm_num)).trans (by norm_num)

end RiskGatekeeper
